import Mathlib

/-!
Verification of `src/voice_bridge.py` (the RT-STT voice bridge).

The bridge installs SIGINT/SIGTERM handlers that call `cleanup`, opens an
unbuffered byte stream, connects an `RTSTTClient`, emits a ready/connected
line, registers transcription and error callbacks, subscribes and starts
listening, emits a ready/listening line, and then blocks forever in
`select.select([], [], [])` wrapped in a bare `try/except: pass`.

Shallow embedding notes:

* Each JSON line written to stdout is modelled as one `OutMsg` value: the
  Python code builds a flat dict and `json.dumps` it, so the dict's fields
  become the constructor's fields.  Confidence is a JSON number that the
  bridge passes through untouched (no arithmetic), modelled as `Rat`.
* A transcription event object is `PyResult`: attribute access `result.text`
  raises `AttributeError` when the attribute is missing, while
  `getattr(result, a, d)` returns the default `d`; hence every attribute is
  an `Option`, required attributes go through `Except`, optional ones
  through `Option.getD`.
* The external client is a black box; a `ClientBehavior` records, for each
  of its five operations, whether the call raises and with which message
  (`str` of the exception).
* Python's `sys.exit 0` raises `SystemExit 0`.  A bare `except:` catches
  `BaseException`, so it swallows `SystemExit`; `except Exception` does not
  catch it.  `SigContext` records which exception context encloses the main
  thread when a signal handler runs, because that decides whether the
  `SystemExit 0` raised at the end of `cleanup` actually terminates the
  process or is swallowed by the bare `except: pass` around `select.select`.
-/

namespace VoiceBridge

/-- One JSON object written as one line on stdout.  `ready "connected"` and
`ready "listening"` are the two startup status lines; `transcription` carries
the four fields built by `on_transcription`; `error` carries the `str` of the
reported exception or error event. -/
inductive OutMsg where
  | ready (status : String)
  | transcription (text : String) (confidence : Rat) (language : String) (is_final : Bool)
  | error (error : String)
  deriving DecidableEq, Repr

/-- True exactly on `error` lines. -/
def OutMsg.isErrorLine : OutMsg → Bool
  | .error _ => true
  | _ => false

/-- A transcription event object delivered by the client.  Every attribute
may be absent: plain attribute access on an absent one raises
`AttributeError`, `getattr` with a default does not. -/
structure PyResult where
  text : Option String
  confidence : Option Rat
  language : Option String
  is_final : Option Bool
  deriving DecidableEq, Repr

/-- The exception raised by plain attribute access on a missing attribute. -/
inductive PyExc where
  | attributeError
  deriving DecidableEq, Repr

/-- The transcription callback (lines 47-56): builds the transcription dict
from `result.text`, `result.confidence`, `getattr(result, 'language', 'en')`
and `getattr(result, 'is_final', True)`, and writes it as one line.  A
missing `text` or `confidence` raises out of the callback. -/
def on_transcription (r : PyResult) : Except PyExc OutMsg :=
  match r.text with
  | none => Except.error PyExc.attributeError
  | some t =>
    match r.confidence with
    | none => Except.error PyExc.attributeError
    | some c =>
      Except.ok (OutMsg.transcription t c (r.language.getD "en") (r.is_final.getD true))

/-- The error callback (lines 58-61): writes one error line holding
`str(error)`; the event is modelled by that string. -/
def on_error (e : String) : OutMsg := OutMsg.error e

/-- The five operations the bridge invokes on the external client. -/
inductive ClientOp where
  | connect
  | subscribe
  | startListening
  | stopListening
  | disconnect
  deriving DecidableEq, Repr

/-- One possible behaviour of the external client: for the constructor and
each operation, `some m` means the call raises an exception whose `str` is
`m`, `none` means it returns normally. -/
structure ClientBehavior where
  ctorError : Option String
  connectError : Option String
  subscribeError : Option String
  startListeningError : Option String
  stopError : Option String
  disconnectError : Option String
  deriving DecidableEq, Repr

/-- A client behaviour on which every call succeeds. -/
def okClient : ClientBehavior :=
  { ctorError := none, connectError := none, subscribeError := none,
    startListeningError := none, stopError := none, disconnectError := none }

/-- What one run of `cleanup` (lines 14-23) did: which client operations it
attempted, which lines it wrote, which exception (if any) escaped it other
than the exit request, and the `sys.exit` code it raised at the end. -/
structure CleanupResult where
  ops : List ClientOp
  emitted : List OutMsg
  propagated : Option String
  exitRequest : Option Nat
  deriving DecidableEq, Repr

/-- The signal handler `cleanup` (lines 14-23): if the global `client` is
still `None` it touches no client operation; otherwise it runs
`client.stop_listening()` then `client.disconnect()` inside one
`try/except: pass`, so an exception from `stop_listening` skips
`disconnect` and every exception is suppressed.  It ends with `sys.exit(0)`,
i.e. it raises `SystemExit 0`; whether that terminates the process depends
on the exception context of the caller, recorded elsewhere. -/
def cleanup (client : Option ClientBehavior) : CleanupResult :=
  match client with
  | none => { ops := [], emitted := [], propagated := none, exitRequest := some 0 }
  | some b =>
    match b.stopError with
    | some _ =>
      { ops := [ClientOp.stopListening], emitted := [],
        propagated := none, exitRequest := some 0 }
    | none =>
      match b.disconnectError with
      | some _ =>
        { ops := [ClientOp.stopListening, ClientOp.disconnect], emitted := [],
          propagated := none, exitRequest := some 0 }
      | none =>
        { ops := [ClientOp.stopListening, ClientOp.disconnect], emitted := [],
          propagated := none, exitRequest := some 0 }

/-- The exception context of the main thread at the moment a signal handler
runs.  `bareExceptSelect`: the main thread is blocked in
`select.select([], [], [])` inside the wait loop's bare `try/except: pass`
(lines 77-82), which catches `BaseException` and hence swallows the
`SystemExit` raised by `cleanup`.  `noBareExcept`: any other point of
`main` - at most `except Exception` (line 84) encloses it, which does not
catch `SystemExit`, so the exit request reaches the interpreter. -/
inductive SigContext where
  | bareExceptSelect
  | noBareExcept
  deriving DecidableEq, Repr

/-- The two termination signals whose handlers are installed (lines 29-30);
both are bound to `cleanup`. -/
inductive Sig where
  | sigint
  | sigterm
  deriving DecidableEq, Repr

/-- Delivering a termination signal: the handler `cleanup` runs to
completion in the main thread, then its `SystemExit 0` either terminates
the process (second component `some code`) or is swallowed by the bare
`except: pass` and the process keeps running (`none`). -/
def deliverSignal (client : Option ClientBehavior) (ctx : SigContext) :
    CleanupResult × Option Nat :=
  let r := cleanup client
  match ctx with
  | SigContext.noBareExcept => (r, r.exitRequest)
  | SigContext.bareExceptSelect => (r, none)

/-- An occurrence in the phase after the ready/listening line: a
transcription event delivered to `on_transcription`, an error event
delivered to `on_error` (modelled by the `str` of the event), or a
termination signal delivered with the main thread in the given exception
context. -/
inductive RuntimeEvent where
  | transcription (r : PyResult)
  | errorEvt (e : String)
  | signal (s : Sig) (ctx : SigContext)
  deriving DecidableEq, Repr

/-- The phase after the ready/listening line (lines 58-82): returns the
lines written and `some code` when the process terminated with that exit
code, `none` when it is still running after the listed events.  A signal in
the `bareExceptSelect` context runs `cleanup` whose `SystemExit 0` is then
swallowed by the bare `except: pass`, so the loop continues; at any other
point the `SystemExit 0` propagates through `except Exception` and the
process exits 0.  A transcription callback that raises writes nothing and
the exception escapes into the client's dispatch mechanism. -/
def runEvents : List RuntimeEvent → List OutMsg × Option Nat
  | [] => ([], none)
  | RuntimeEvent.signal _ ctx :: rest =>
    match ctx with
    | SigContext.bareExceptSelect => runEvents rest
    | SigContext.noBareExcept => ([], some 0)
  | RuntimeEvent.transcription r :: rest =>
    match on_transcription r with
    | Except.ok m =>
      let p := runEvents rest
      (m :: p.1, p.2)
    | Except.error _ => runEvents rest
  | RuntimeEvent.errorEvt e :: rest =>
    let p := runEvents rest
    (on_error e :: p.1, p.2)

/-- Outcome of the startup sequence: either the process already exited with
the given lines written and exit code, or it reached the listening loop
having written the given lines. -/
inductive StartupResult where
  | exited (lines : List OutMsg) (code : Nat)
  | listening (lines : List OutMsg)
  deriving DecidableEq, Repr

/-- The startup sequence of `main` (lines 36-73): construct the client,
connect, emit ready/connected, register callbacks, subscribe, start
listening, emit ready/listening.  Any exception is caught by
`except Exception` (lines 84-88), which writes one error line holding its
`str` and calls `cleanup`; the `SystemExit 0` raised there propagates (no
bare except encloses this point) and the process exits 0.  If the
constructor itself raised, the global `client` is still `None` during that
`cleanup`. -/
def startup (b : ClientBehavior) : StartupResult :=
  match b.ctorError with
  | some e => StartupResult.exited [OutMsg.error e] 0
  | none =>
  match b.connectError with
  | some e => StartupResult.exited [OutMsg.error e] 0
  | none =>
  match b.subscribeError with
  | some e => StartupResult.exited [OutMsg.ready "connected", OutMsg.error e] 0
  | none =>
  match b.startListeningError with
  | some e => StartupResult.exited [OutMsg.ready "connected", OutMsg.error e] 0
  | none =>
  StartupResult.listening [OutMsg.ready "connected", OutMsg.ready "listening"]

/-- A whole run of the bridge against a client behaviour and, when the
listening loop is reached, a list of runtime events: all lines written in
order, and `some code` when the process terminated. -/
def bridgeRun (b : ClientBehavior) (evts : List RuntimeEvent) :
    List OutMsg × Option Nat :=
  match startup b with
  | StartupResult.exited ls c => (ls, some c)
  | StartupResult.listening ls =>
    let p := runEvents evts
    (ls ++ p.1, p.2)

/-- Claim C2: for every transcription event whose `text` and `confidence`
attributes are present, the emitted message has type transcription, its text
and confidence equal the event's fields exactly, its language equals the
event's language when present and "en" when absent, and its is-final flag
equals the event's when present and true when absent; the runtime loop
writes exactly that one line for the event. -/
theorem transcription_fields_exact (r : PyResult) (t : String) (c : Rat)
    (ht : r.text = some t) (hc : r.confidence = some c) :
    ∃ lang fin,
      on_transcription r = Except.ok (OutMsg.transcription t c lang fin)
        ∧ (∀ rest, (runEvents (RuntimeEvent.transcription r :: rest)).1
            = OutMsg.transcription t c lang fin :: (runEvents rest).1)
        ∧ (∀ l, r.language = some l → lang = l)
        ∧ (r.language = none → lang = "en")
        ∧ (∀ f, r.is_final = some f → fin = f)
        ∧ (r.is_final = none → fin = true) := by
  refine ⟨r.language.getD "en", r.is_final.getD true, ?_, ?_, ?_, ?_, ?_, ?_⟩
  · simp [on_transcription, ht, hc]
  · intro rest
    simp [runEvents, on_transcription, ht, hc]
  · intro l hl
    rw [hl]
    rfl
  · intro hl
    rw [hl]
    rfl
  · intro f hf
    rw [hf]
    rfl
  · intro hf
    rw [hf]
    rfl

/-- Claim C2, witness at the spec's scenario: the event carries text
"hello world" and confidence 0.92 and omits language and is-final. -/
theorem transcription_fields_exact_witness :
    (PyResult.mk (some "hello world") (some (23/25 : Rat)) none none).text
        = some "hello world"
      ∧ (PyResult.mk (some "hello world") (some (23/25 : Rat)) none none).confidence
        = some (23/25 : Rat)
      ∧ (∃ lang fin,
          on_transcription (PyResult.mk (some "hello world") (some (23/25 : Rat)) none none)
              = Except.ok (OutMsg.transcription "hello world" (23/25 : Rat) lang fin)
            ∧ (∀ rest,
                (runEvents (RuntimeEvent.transcription
                    (PyResult.mk (some "hello world") (some (23/25 : Rat)) none none) :: rest)).1
                  = OutMsg.transcription "hello world" (23/25 : Rat) lang fin
                    :: (runEvents rest).1)
            ∧ (∀ l, (PyResult.mk (some "hello world") (some (23/25 : Rat)) none none).language
                = some l → lang = l)
            ∧ ((PyResult.mk (some "hello world") (some (23/25 : Rat)) none none).language
                = none → lang = "en")
            ∧ (∀ f, (PyResult.mk (some "hello world") (some (23/25 : Rat)) none none).is_final
                = some f → fin = f)
            ∧ ((PyResult.mk (some "hello world") (some (23/25 : Rat)) none none).is_final
                = none → fin = true)) :=
  ⟨rfl, rfl, transcription_fields_exact _ "hello world" (23/25 : Rat) rfl rfl⟩

/-- Claim C10: the tolerance for a partial event applies only to language
and is-final: an event lacking `text` or `confidence` makes the
transcription callback raise, and the exception escapes to the client - the
runtime loop writes no line for that event. -/
theorem transcription_missing_required_raises (r : PyResult)
    (h : r.text = none ∨ r.confidence = none) :
    on_transcription r = Except.error PyExc.attributeError
      ∧ ∀ rest, runEvents (RuntimeEvent.transcription r :: rest) = runEvents rest := by
  have h1 : on_transcription r = Except.error PyExc.attributeError := by
    rcases h with h | h
    · simp [on_transcription, h]
    · rcases htext : r.text with _ | t
      · simp [on_transcription, htext]
      · simp [on_transcription, htext, h]
  exact ⟨h1, fun rest => by simp [runEvents, h1]⟩

/-- Claim C10, witness: an event with confidence 1 but no text attribute. -/
theorem transcription_missing_required_raises_witness :
    ((PyResult.mk none (some (1 : Rat)) none none).text = none
        ∨ (PyResult.mk none (some (1 : Rat)) none none).confidence = none)
      ∧ (on_transcription (PyResult.mk none (some (1 : Rat)) none none)
            = Except.error PyExc.attributeError
          ∧ ∀ rest, runEvents (RuntimeEvent.transcription
                (PyResult.mk none (some (1 : Rat)) none none) :: rest)
              = runEvents rest) :=
  ⟨Or.inl rfl, transcription_missing_required_raises _ (Or.inl rfl)⟩

/-- Claim C7: for every error event delivered after startup, exactly one
error line holding the event's string representation is written, and the
error callback by itself never terminates the process: the outcome of the
run is whatever the remaining events produce, and for the event alone the
process is still running. -/
theorem error_event_reports_and_continues (e : String) (rest : List RuntimeEvent) :
    runEvents (RuntimeEvent.errorEvt e :: rest)
        = (on_error e :: (runEvents rest).1, (runEvents rest).2)
      ∧ on_error e = OutMsg.error e
      ∧ runEvents [RuntimeEvent.errorEvt e] = ([OutMsg.error e], none) :=
  ⟨rfl, rfl, rfl⟩

/-- Claim C4: whatever the client behaviour (including stop-listening or
disconnect raising) and whether the client exists at all, `cleanup` lets no
exception escape, writes nothing, and ends by requesting process exit with
status 0. -/
theorem cleanup_never_raises_and_exits_zero (c : Option ClientBehavior) :
    (cleanup c).propagated = none ∧ (cleanup c).emitted = []
      ∧ (cleanup c).exitRequest = some 0 := by
  rcases c with _ | b
  · exact ⟨rfl, rfl, rfl⟩
  · rcases hs : b.stopError with _ | m
    · rcases hd : b.disconnectError with _ | m
      · simp [cleanup, hs, hd]
      · simp [cleanup, hs, hd]
    · simp [cleanup, hs]

/-- Claim C9: when `stop_listening` raises during cleanup, `disconnect` is
never attempted - the two calls share one protected block, so cleanup stops
at the first failure and proceeds to the exit request. -/
theorem cleanup_stop_failure_skips_disconnect (b : ClientBehavior) (m : String)
    (h : b.stopError = some m) :
    (cleanup (some b)).ops = [ClientOp.stopListening]
      ∧ ClientOp.disconnect ∉ (cleanup (some b)).ops
      ∧ (cleanup (some b)).exitRequest = some 0 := by
  simp [cleanup, h]

/-- Claim C9, witness: a client whose stop-listening call raises. -/
theorem cleanup_stop_failure_skips_disconnect_witness :
    ({ okClient with stopError := some "boom" } : ClientBehavior).stopError = some "boom"
      ∧ ((cleanup (some { okClient with stopError := some "boom" })).ops
            = [ClientOp.stopListening]
          ∧ ClientOp.disconnect
              ∉ (cleanup (some { okClient with stopError := some "boom" })).ops
          ∧ (cleanup (some { okClient with stopError := some "boom" })).exitRequest
              = some 0) :=
  ⟨rfl, cleanup_stop_failure_skips_disconnect _ "boom" rfl⟩

/-- Claim C8: a termination signal delivered while the client handle is
still `None` performs no client operation, writes nothing, and the exit
request of status 0 propagates (no bare except encloses the startup phase),
so the process exits with code 0. -/
theorem signal_before_client_constructed :
    (cleanup none).ops = [] ∧ (cleanup none).emitted = []
      ∧ (cleanup none).propagated = none
      ∧ deliverSignal none SigContext.noBareExcept = (cleanup none, some 0) :=
  ⟨rfl, rfl, rfl, rfl⟩

/-- Claim C1, evaluation at the failing input: a SIGTERM delivered while
the main thread is blocked in `select.select` inside the bare
`except: pass` runs `cleanup`, but the `SystemExit 0` it raises is swallowed
by that bare except, so the process keeps running (outcome `none`) and a
later transcription event still writes a line - contradicting the claim
that the process terminates with exit code 0 and that no further lines
appear after cleanup begins. -/
theorem signal_in_select_does_not_terminate :
    runEvents [RuntimeEvent.signal Sig.sigterm SigContext.bareExceptSelect,
        RuntimeEvent.transcription (PyResult.mk (some "late") (some (1 : Rat)) none none)]
        = ([OutMsg.transcription "late" (1 : Rat) "en" true], none)
      ∧ (deliverSignal (some okClient) SigContext.bareExceptSelect).2 = none :=
  ⟨rfl, rfl⟩

/-- Claim C3: when the constructor succeeds but `connect` raises, the whole
run writes exactly one error line holding the exception's string, never a
ready/connected or ready/listening line, and the process exits with code
0. -/
theorem connect_failure_reports_once_and_exits (b : ClientBehavior) (e : String)
    (evts : List RuntimeEvent)
    (hctor : b.ctorError = none) (hconn : b.connectError = some e) :
    (bridgeRun b evts).1 = [OutMsg.error e]
      ∧ (bridgeRun b evts).2 = some 0
      ∧ OutMsg.ready "connected" ∉ (bridgeRun b evts).1
      ∧ OutMsg.ready "listening" ∉ (bridgeRun b evts).1
      ∧ (bridgeRun b evts).1.countP OutMsg.isErrorLine = 1 := by
  have hrun : bridgeRun b evts = ([OutMsg.error e], some 0) := by
    simp [bridgeRun, startup, hctor, hconn]
  rw [hrun]
  refine ⟨rfl, rfl, ?_, ?_, rfl⟩
  · simp
  · simp

/-- Claim C3, witness at the spec's scenario: connect raises with message
"backend unreachable" and no runtime events follow. -/
theorem connect_failure_reports_once_and_exits_witness :
    ({ okClient with connectError := some "backend unreachable" } : ClientBehavior).ctorError
        = none
      ∧ ({ okClient with connectError := some "backend unreachable" } : ClientBehavior).connectError
        = some "backend unreachable"
      ∧ ((bridgeRun { okClient with connectError := some "backend unreachable" } []).1
            = [OutMsg.error "backend unreachable"]
          ∧ (bridgeRun { okClient with connectError := some "backend unreachable" } []).2
            = some 0
          ∧ OutMsg.ready "connected"
              ∉ (bridgeRun { okClient with connectError := some "backend unreachable" } []).1
          ∧ OutMsg.ready "listening"
              ∉ (bridgeRun { okClient with connectError := some "backend unreachable" } []).1
          ∧ (bridgeRun { okClient with connectError := some "backend unreachable" } []).1.countP
              OutMsg.isErrorLine = 1) :=
  ⟨rfl, rfl, connect_failure_reports_once_and_exits _ "backend unreachable" [] rfl rfl⟩

/-- Claim C6: in every possible output stream of the bridge, wherever a
ready/listening line occurs, a ready/connected line occurs before it. -/
theorem listening_never_before_connected (b : ClientBehavior)
    (evts : List RuntimeEvent) (pre suf : List OutMsg)
    (h : (bridgeRun b evts).1 = pre ++ OutMsg.ready "listening" :: suf) :
    OutMsg.ready "connected" ∈ pre := by
  rcases h0 : b.ctorError with _ | e0
  · rcases h1 : b.connectError with _ | e1
    · rcases h2 : b.subscribeError with _ | e2
      · rcases h3 : b.startListeningError with _ | e3
        · simp only [bridgeRun, startup, h0, h1, h2, h3, List.cons_append,
            List.nil_append] at h
          cases pre with
          | nil =>
            rw [List.nil_append] at h
            injection h with h4 h5
            simp at h4
          | cons a pre2 =>
            rw [List.cons_append] at h
            injection h with h4 h5
            rw [← h4]
            exact List.mem_cons_self _ _
        · have hmem : OutMsg.ready "listening" ∈ pre ++ OutMsg.ready "listening" :: suf :=
            List.mem_append_right _ (List.mem_cons_self _ _)
          rw [← h] at hmem
          simp [bridgeRun, startup, h0, h1, h2, h3] at hmem
      · have hmem : OutMsg.ready "listening" ∈ pre ++ OutMsg.ready "listening" :: suf :=
          List.mem_append_right _ (List.mem_cons_self _ _)
        rw [← h] at hmem
        simp [bridgeRun, startup, h0, h1, h2] at hmem
    · have hmem : OutMsg.ready "listening" ∈ pre ++ OutMsg.ready "listening" :: suf :=
        List.mem_append_right _ (List.mem_cons_self _ _)
      rw [← h] at hmem
      simp [bridgeRun, startup, h0, h1] at hmem
  · have hmem : OutMsg.ready "listening" ∈ pre ++ OutMsg.ready "listening" :: suf :=
      List.mem_append_right _ (List.mem_cons_self _ _)
    rw [← h] at hmem
    simp [bridgeRun, startup, h0] at hmem

/-- Claim C6, witness: the fully successful run writes the connected line
and then the listening line. -/
theorem listening_never_before_connected_witness :
    (bridgeRun okClient []).1
        = [OutMsg.ready "connected"] ++ OutMsg.ready "listening" :: []
      ∧ OutMsg.ready "connected" ∈ [OutMsg.ready "connected"] :=
  ⟨rfl, listening_never_before_connected okClient [] [OutMsg.ready "connected"] [] rfl⟩

end VoiceBridge
